import Mathlib

/-
Verification of the deterministic deal-modeling core of the dealflow engine.

The Python source is embedded shallowly over exact rationals (ℚ): the engine's
float arithmetic carries no intentional rounding inside computations (rounding
happens only at the serialization boundary), so each arithmetic expression of
the source is transcribed literally over ℚ.  Python dictionaries keyed by
tranche name become association lists with a `.get(name, 0.0)` lookup,
exceptions become `Except`, and the solver's `for` loop with `break` becomes a
fuel-based recursion with fuel = MAX_ITERATIONS.
-/

/-- `dict.get(k, 0.0)` over an association list keyed by string, as used for
`tranche_balances`, `tranche_mandatory` and `tranche_optional` in
`circularity_solver.py`. -/
def lookupQ (m : List (String × ℚ)) (k : String) : ℚ :=
  match m.find? (fun p => p.1 == k) with
  | some p => p.2
  | none => 0

/-- Round-half-to-even to an integer, the behaviour of Python's built-in
`round` on exact values. -/
def roundHalfEven (q : ℚ) : ℤ :=
  if q - ⌊q⌋ < 1/2 then ⌊q⌋
  else if 1/2 < q - ⌊q⌋ then ⌊q⌋ + 1
  else if ⌊q⌋ % 2 = 0 then ⌊q⌋ else ⌊q⌋ + 1

/-- Python `round(x, n)`: round half-to-even at the n-th decimal place. -/
def pyRound (n : ℕ) (q : ℚ) : ℚ :=
  (roundHalfEven (q * 10 ^ n) : ℚ) / 10 ^ n

-- ---------------------------------------------------------------------------
-- Purchase price allocation (src/backend/app/engine/purchase_price.py,
-- compute_ppa, lines 67-87)
-- ---------------------------------------------------------------------------

/-- The numeric inputs that `compute_ppa` reads from a `DealInput`:
`deal.target.{cash_on_hand, working_capital, total_debt, acquisition_price}`,
`deal.ppa.{asset_writeup, identifiable_intangibles}` and
`deal.acquirer.tax_rate`. -/
structure PPAInputs where
  acquisition_price : ℚ
  cash_on_hand : ℚ
  working_capital : ℚ
  total_debt : ℚ
  asset_writeup : ℚ
  identifiable_intangibles : ℚ
  tax_rate : ℚ

/-- `net_assets_book = target.cash_on_hand + target.working_capital -
target.total_debt` (purchase_price.py lines 69-73). -/
def net_assets_book (p : PPAInputs) : ℚ :=
  p.cash_on_hand + p.working_capital - p.total_debt

/-- `dtl = (ppa.asset_writeup + ppa.identifiable_intangibles) * tax_rate`
(purchase_price.py lines 78-79). -/
def ppa_dtl (p : PPAInputs) : ℚ :=
  (p.asset_writeup + p.identifiable_intangibles) * p.tax_rate

/-- `fvna = net_assets_book + ppa.asset_writeup + ppa.identifiable_intangibles
- dtl` (purchase_price.py line 83). -/
def ppa_fvna (p : PPAInputs) : ℚ :=
  net_assets_book p + p.asset_writeup + p.identifiable_intangibles - ppa_dtl p

/-- `goodwill = max(0.0, target.acquisition_price - fvna)`
(purchase_price.py line 87). -/
def ppa_goodwill (p : PPAInputs) : ℚ :=
  max 0 (p.acquisition_price - ppa_fvna p)

/-- A target with pre-existing debt exceeding cash + NWC and no step-ups:
book equity is negative, FVNA is negative, and goodwill exceeds the
acquisition price.  All field constraints of the Pydantic models are met
(price > 0, cash ≥ 0, debt ≥ 0, write-ups ≥ 0, tax rate ∈ [0,1]). -/
def ppaNegativeEquityInput : PPAInputs :=
  { acquisition_price := 50
    cash_on_hand := 0
    working_capital := 0
    total_debt := 100
    asset_writeup := 0
    identifiable_intangibles := 0
    tax_rate := 1/4 }

-- ---------------------------------------------------------------------------
-- Accretion/dilution bridge (src/backend/app/engine/financial_engine.py,
-- run_deal, lines 408-448)
-- ---------------------------------------------------------------------------

/-- The per-year numeric inputs of the bridge block in `run_deal`
(financial_engine.py lines 408-448): the year's standalone and pro-forma EPS,
the target's grown net income `tgt.net_income * (1 + target_growth) ** yr`,
the year's interest expense from the debt schedule, the PPA incremental D&A,
the realized cost and revenue synergies, the acquirer tax rate, the pro-forma
share count `acq.shares_outstanding + new_shares_issued`, the number of new
shares issued and the acquirer's share count.  Quantifying over all rational
values of these fields covers every valid `DealInput` and every projection
year. -/
structure BridgeYearInputs where
  standalone_eps : ℚ
  pro_forma_eps : ℚ
  target_ni : ℚ
  interest_exp : ℚ
  ppa_incremental : ℚ
  cost_syn : ℚ
  rev_syn : ℚ
  tax_rate : ℚ
  total_shares : ℚ
  new_shares : ℚ
  acq_shares : ℚ

/-- `target_earnings_contribution = target_ni_yr / total_shares_pro_forma if
total_shares_pro_forma > 0 else 0.0` (financial_engine.py line 412). -/
def target_earnings_contribution (b : BridgeYearInputs) : ℚ :=
  if 0 < b.total_shares then b.target_ni / b.total_shares else 0

/-- `interest_drag = -(interest_exp * (1 - acq.tax_rate)) /
total_shares_pro_forma` guarded on positive share count
(financial_engine.py line 413). -/
def interest_expense_drag (b : BridgeYearInputs) : ℚ :=
  if 0 < b.total_shares then -(b.interest_exp * (1 - b.tax_rate)) / b.total_shares else 0

/-- `da_adj = -(ppa.total_incremental_annual * (1 - acq.tax_rate)) /
total_shares_pro_forma` guarded on positive share count
(financial_engine.py line 414). -/
def da_adjustment (b : BridgeYearInputs) : ℚ :=
  if 0 < b.total_shares then -(b.ppa_incremental * (1 - b.tax_rate)) / b.total_shares else 0

/-- `syn_benefit = ((cost_syn_yr + rev_syn_yr) * (1 - acq.tax_rate)) /
total_shares_pro_forma` guarded on positive share count
(financial_engine.py line 415). -/
def synergy_benefit (b : BridgeYearInputs) : ℚ :=
  if 0 < b.total_shares then ((b.cost_syn + b.rev_syn) * (1 - b.tax_rate)) / b.total_shares else 0

/-- `share_dilution = -((acq_standalone_ni_yr / total_shares_pro_forma) -
standalone_eps_yr) if new_shares_issued > 0 and total_shares_pro_forma > 0
else 0.0`, with `acq_standalone_ni_yr = standalone_eps_yr *
acq.shares_outstanding` (financial_engine.py lines 408, 416-420). -/
def share_dilution_impact (b : BridgeYearInputs) : ℚ :=
  if 0 < b.new_shares ∧ 0 < b.total_shares then
    -((b.standalone_eps * b.acq_shares) / b.total_shares - b.standalone_eps)
  else 0

/-- `components_sum` — sum of the five explicit bridge components
(financial_engine.py lines 423-429). -/
def bridge_components_sum (b : BridgeYearInputs) : ℚ :=
  target_earnings_contribution b + interest_expense_drag b + da_adjustment b
    + synergy_benefit b + share_dilution_impact b

/-- `actual_eps_delta = pro_forma_eps - standalone_eps_yr`
(financial_engine.py line 433). -/
def actual_eps_delta (b : BridgeYearInputs) : ℚ :=
  b.pro_forma_eps - b.standalone_eps

/-- `tax_impact = actual_eps_delta - components_sum` — the reconciling
residual (financial_engine.py line 434). -/
def bridge_tax_impact (b : BridgeYearInputs) : ℚ :=
  actual_eps_delta b - bridge_components_sum b

/-- `total_bridge = components_sum + tax_impact` (financial_engine.py
line 436). -/
def bridge_total (b : BridgeYearInputs) : ℚ :=
  bridge_components_sum b + bridge_tax_impact b

-- ---------------------------------------------------------------------------
-- Theorems: C1 and C2
-- ---------------------------------------------------------------------------

/-- C1: for every valid deal and projection year (covered by quantifying over
all rational values of the bridge's per-year inputs), the six bridge
components — five explicit ones plus the residual `tax_impact` — sum exactly
to `pro_forma_eps - standalone_eps`, and so the absolute difference between
the component sum and the EPS delta is 0 < $0.005. -/
theorem bridge_reconciles_to_eps_delta (b : BridgeYearInputs) :
    bridge_total b = actual_eps_delta b ∧
    |bridge_total b - actual_eps_delta b| < 5/1000 := by
  constructor
  · unfold bridge_total bridge_tax_impact
    ring
  · have h : bridge_total b - actual_eps_delta b = 0 := by
      unfold bridge_total bridge_tax_impact
      ring
    rw [h]
    norm_num

/-- C2 counterexample: for the valid input `ppaNegativeEquityInput`
(target debt $100, no cash/NWC/step-ups, price $50) the allocator returns
goodwill = $150 > $50 = acquisition price, refuting the claimed upper bound
`goodwill ≤ acquisition_price`. -/
theorem goodwill_can_exceed_price :
    ppa_goodwill ppaNegativeEquityInput > ppaNegativeEquityInput.acquisition_price := by
  norm_num [ppa_goodwill, ppa_fvna, net_assets_book, ppa_dtl, ppaNegativeEquityInput]

/-- C2 (amended): for a valid input (acquisition price > 0), goodwill is
always non-negative, and is bounded above by the acquisition price whenever
the fair value of net identifiable assets is non-negative (the bound fails
exactly when FVNA < 0, i.e. when the target's approximated book equity is
negative enough to outweigh the step-ups). -/
theorem goodwill_bounds (p : PPAInputs) (hp : 0 < p.acquisition_price)
    (h : 0 ≤ ppa_fvna p) :
    0 ≤ ppa_goodwill p ∧ ppa_goodwill p ≤ p.acquisition_price := by
  constructor
  · exact le_max_left 0 _
  · unfold ppa_goodwill
    rcases max_cases (0 : ℚ) (p.acquisition_price - ppa_fvna p) with ⟨heq, hle⟩ | ⟨heq, hlt⟩
    · rw [heq]; linarith
    · rw [heq]; linarith

/-- A healthy target for the C2 witness: price 100, cash 30, NWC 20, debt 10,
write-up 10, intangibles 10, tax 25%; FVNA = 55 ≥ 0. -/
def ppaHealthyInput : PPAInputs :=
  { acquisition_price := 100
    cash_on_hand := 30
    working_capital := 20
    total_debt := 10
    asset_writeup := 10
    identifiable_intangibles := 10
    tax_rate := 1/4 }

/-- Witness for C2 (amended) at the concrete healthy input. -/
theorem goodwill_bounds_witness :
    (0 < ppaHealthyInput.acquisition_price ∧ 0 ≤ ppa_fvna ppaHealthyInput) ∧
    (0 ≤ ppa_goodwill ppaHealthyInput ∧
      ppa_goodwill ppaHealthyInput ≤ ppaHealthyInput.acquisition_price) := by
  refine ⟨⟨?_, ?_⟩, goodwill_bounds _ ?_ ?_⟩ <;>
    norm_num [ppa_fvna, net_assets_book, ppa_dtl, ppaHealthyInput]

-- ---------------------------------------------------------------------------
-- Circularity solver (src/backend/app/engine/circularity_solver.py)
-- ---------------------------------------------------------------------------

/-- `AmortizationType` enumeration (models.py lines 40-43). -/
inductive AmortizationType where
  | straight_line
  | interest_only
  | bullet
deriving DecidableEq, Repr

/-- `DebtTranche` (models.py lines 203-209); term in years, rate as decimal. -/
structure DebtTranche where
  name : String
  amount : ℚ
  interest_rate : ℚ
  term_years : ℕ
  amortization_type : AmortizationType
deriving DecidableEq, Repr

/-- `_scheduled_principal` (circularity_solver.py lines 67-96): mandatory
principal of a tranche in a given year given its beginning-of-year balance. -/
def scheduled_principal (t : DebtTranche) (year : ℕ) (current_balance : ℚ) : ℚ :=
  match t.amortization_type with
  | .interest_only => if year = t.term_years then current_balance else 0
  | .bullet => if year = t.term_years then current_balance else 0
  | .straight_line =>
      if t.term_years < year then 0
      else min (t.amount / (t.term_years : ℚ)) current_balance

/-- `DebtScheduleYear` (circularity_solver.py lines 41-50). -/
structure DebtScheduleYear where
  tranche_name : String
  beginning_balance : ℚ
  scheduled_principal : ℚ
  optional_paydown : ℚ
  interest_expense : ℚ
  ending_balance : ℚ
  interest_rate : ℚ
deriving DecidableEq, Repr

/-- `SolverResult` (circularity_solver.py lines 53-64). -/
structure SolverResult where
  total_interest_expense : ℚ
  total_debt_paydown : ℚ
  optional_cash_sweep : ℚ
  ending_debt_balance : ℚ
  tranche_schedules : List DebtScheduleYear
  converged : Bool
  iterations : ℕ
  net_income : ℚ
  free_cash_flow : ℚ
deriving DecidableEq, Repr

/-- The arguments of `solve_year` (circularity_solver.py lines 99-108);
`tranche_balances` is the dict of beginning-of-year balances. -/
structure YearInputs where
  ebitda : ℚ
  da : ℚ
  capex : ℚ
  working_capital_change : ℚ
  tax_rate : ℚ
  tranche_balances : List (String × ℚ)
  tranches : List DebtTranche
  year : ℕ

/-- The `tranche_mandatory` dict (circularity_solver.py lines 146-155):
zero for tranches with non-positive balance, else `_scheduled_principal`. -/
def tranche_mandatory (p : YearInputs) : List (String × ℚ) :=
  p.tranches.map (fun t =>
    let bal := lookupQ p.tranche_balances t.name
    if bal ≤ 0 then (t.name, 0)
    else (t.name, scheduled_principal t p.year bal))

/-- `total_mandatory` — the running sum accumulated alongside
`tranche_mandatory` (circularity_solver.py lines 147, 155). -/
def total_mandatory (p : YearInputs) : ℚ :=
  ((tranche_mandatory p).map Prod.snd).sum

/-- The initial interest guess `prev_interest = Σ balance × rate` over
tranches with positive balance (circularity_solver.py lines 158-162). -/
def initial_interest (p : YearInputs) : ℚ :=
  ((p.tranches.filter (fun t => 0 < lookupQ p.tranche_balances t.name)).map
    (fun t => lookupQ p.tranche_balances t.name * t.interest_rate)).sum

/-- Stable descending insertion by interest rate: the inserted (earlier)
tranche goes before the first element whose rate is ≤ its own. -/
def insertRateDesc (t : DebtTranche) : List DebtTranche → List DebtTranche
  | [] => [t]
  | x :: xs =>
      if x.interest_rate ≤ t.interest_rate then t :: x :: xs
      else x :: insertRateDesc t xs

/-- `sorted_tranches = sorted(tranches, key=rate, reverse=True)`
(circularity_solver.py line 171): Python's sort is stable, so equal-rate
tranches keep their original order. -/
def sorted_tranches (ts : List DebtTranche) : List DebtTranche :=
  ts.foldr insertRateDesc []

/-- The optional-sweep waterfall (circularity_solver.py lines 185-196):
walk tranches in descending-rate order; `break` when nothing remains,
`continue` past tranches with no headroom after mandatory amortization,
else sweep `min(remaining, boy - mandatory)`. Result is the
`tranche_optional` dict (absent entries read as 0). -/
def waterfall (balances mandatory : List (String × ℚ)) :
    List DebtTranche → ℚ → List (String × ℚ)
  | [], _ => []
  | t :: ts, remaining =>
      if remaining ≤ 0 then []
      else
        let boy := lookupQ balances t.name
        let after_mandatory := boy - lookupQ mandatory t.name
        if after_mandatory ≤ 0 then waterfall balances mandatory ts remaining
        else
          let sweep := min remaining after_mandatory
          (t.name, sweep) :: waterfall balances mandatory ts (remaining - sweep)

/-- Output of one iteration of the fixed-point loop. -/
structure IterOut where
  schedules : List DebtScheduleYear
  new_interest : ℚ
  net_income : ℚ
  fcf : ℚ
deriving DecidableEq, Repr

/-- One iteration of the loop body (circularity_solver.py lines 176-223):
NI and FCF from the current interest estimate, optional sweep, per-tranche
ending balances and average-balance interest. -/
def iter_step (p : YearInputs) (prev_interest : ℚ) : IterOut :=
  let ebit := p.ebitda - p.da
  let ebt := ebit - prev_interest
  let taxes := max 0 (ebt * p.tax_rate)
  let net_income := ebt - taxes
  let fcf := net_income + p.da - p.capex - p.working_capital_change
  let mand := tranche_mandatory p
  let optional_available := max 0 (fcf - total_mandatory p)
  let opt := waterfall p.tranche_balances mand (sorted_tranches p.tranches) optional_available
  let schedules :=
    (p.tranches.filter (fun t => 0 < lookupQ p.tranche_balances t.name)).map (fun t =>
      let boy := lookupQ p.tranche_balances t.name
      let m := lookupQ mand t.name
      let o := lookupQ opt t.name
      let ending := max 0 (boy - m - o)
      { tranche_name := t.name
        beginning_balance := boy
        scheduled_principal := m
        optional_paydown := o
        interest_expense := ((boy + ending) / 2) * t.interest_rate
        ending_balance := ending
        interest_rate := t.interest_rate })
  { schedules := schedules
    new_interest := (schedules.map (fun s => s.interest_expense)).sum
    net_income := net_income
    fcf := fcf }

/-- The convergence test (circularity_solver.py lines 226-233):
`|new - prev| ≤ ABSOLUTE_TOLERANCE` or
`|new - prev| / max(|prev|, 1) ≤ RELATIVE_TOLERANCE`. -/
def conv_ok (prev_interest new_interest : ℚ) : Bool :=
  decide (|new_interest - prev_interest| ≤ 1 ∨
    |new_interest - prev_interest| / max |prev_interest| 1 ≤ 1/10000)

/-- The damping update `prev := DAMPING * prev + (1 - DAMPING) * new` with
`DAMPING = 0.5` (circularity_solver.py line 238). -/
def damp_step (p : YearInputs) (prev_interest : ℚ) : ℚ :=
  (1/2) * prev_interest + (1/2) * (iter_step p prev_interest).new_interest

/-- The sequence of `prev_interest` values across iterations: seeded with the
beginning-of-year estimate, then damped each round. -/
def prev_seq (p : YearInputs) (k : ℕ) : ℚ :=
  (damp_step p)^[k] (initial_interest p)

/-- Result of the `for iteration in range(MAX_ITERATIONS)` loop. -/
structure LoopOut where
  schedules : List DebtScheduleYear
  net_income : ℚ
  fcf : ℚ
  converged : Bool
  iterations : ℕ
deriving DecidableEq, Repr

/-- The fixed-point loop (circularity_solver.py lines 173-238) with explicit
fuel: run one iteration; stop with `converged = true` on the tolerance test,
stop with the last computed state and `converged = false` when the fuel runs
out, else damp and continue. -/
def solve_loop (p : YearInputs) : ℕ → ℚ → ℕ → LoopOut
  | 0, _, iters_done =>
      { schedules := [], net_income := 0, fcf := 0, converged := false,
        iterations := iters_done }
  | fuel + 1, prev_interest, iters_done =>
      let st := iter_step p prev_interest
      let iters := iters_done + 1
      if conv_ok prev_interest st.new_interest then
        { schedules := st.schedules, net_income := st.net_income, fcf := st.fcf,
          converged := true, iterations := iters }
      else if fuel = 0 then
        { schedules := st.schedules, net_income := st.net_income, fcf := st.fcf,
          converged := false, iterations := iters }
      else
        solve_loop p fuel (damp_step p prev_interest) iters

/-- `MAX_ITERATIONS` (circularity_solver.py line 35). -/
def MAX_ITERATIONS : ℕ := 100

/-- `solve_year` (circularity_solver.py lines 99-265): the empty-tranche
short-circuit (lines 132-143), else the fixed-point loop followed by totals
over the final schedule (lines 249-265). -/
def solve_year (p : YearInputs) : SolverResult :=
  if p.tranches = [] then
    { total_interest_expense := 0
      total_debt_paydown := 0
      optional_cash_sweep := 0
      ending_debt_balance := 0
      tranche_schedules := []
      converged := true
      iterations := 0
      net_income := max 0 ((p.ebitda - p.da) * (1 - p.tax_rate))
      free_cash_flow :=
        max 0 ((p.ebitda - p.da) * (1 - p.tax_rate)) + p.da - p.capex
          - p.working_capital_change }
  else
    let r := solve_loop p MAX_ITERATIONS (initial_interest p) 0
    { total_interest_expense := (r.schedules.map (fun s => s.interest_expense)).sum
      total_debt_paydown := (r.schedules.map (fun s => s.scheduled_principal)).sum
        + (r.schedules.map (fun s => s.optional_paydown)).sum
      optional_cash_sweep := (r.schedules.map (fun s => s.optional_paydown)).sum
      ending_debt_balance := (r.schedules.map (fun s => s.ending_balance)).sum
      tranche_schedules := r.schedules
      converged := r.converged
      iterations := r.iterations
      net_income := r.net_income
      free_cash_flow := r.fcf }

-- ---------------------------------------------------------------------------
-- Theorems: C3 (zero-tranche short-circuit) and C5 (loop contract)
-- ---------------------------------------------------------------------------

/-- A loss-making year with no tranches: EBITDA 0, D&A 100, tax 25%, no capex
or working-capital change. -/
def zeroTrancheLossInput : YearInputs :=
  { ebitda := 0
    da := 100
    capex := 0
    working_capital_change := 0
    tax_rate := 1/4
    tranche_balances := []
    tranches := []
    year := 1 }

/-- C3: on the zero-tranche short-circuit with EBITDA − D&A = −100 the code
returns net income 0 (it wraps the unlevered net income in `max(0.0, ·)`,
circularity_solver.py line 141) and free cash flow 100, whereas the
documented formula `NI = EBT × (1 − tax_rate)` with taxes floored at zero —
the one the non-empty-tranche loop in the same function implements at lines
177-180 — yields net income −100 and free cash flow 0. -/
theorem zero_tranche_ni_floored :
    (solve_year zeroTrancheLossInput).net_income = 0 ∧
    (solve_year zeroTrancheLossInput).free_cash_flow = 100 ∧
    (zeroTrancheLossInput.ebitda - zeroTrancheLossInput.da)
        - max 0 ((zeroTrancheLossInput.ebitda - zeroTrancheLossInput.da)
          * zeroTrancheLossInput.tax_rate) = -100 ∧
    (-100 : ℚ) + zeroTrancheLossInput.da - zeroTrancheLossInput.capex
        - zeroTrancheLossInput.working_capital_change = 0 := by
  refine ⟨?_, ?_, ?_, ?_⟩ <;> norm_num [solve_year, zeroTrancheLossInput]


/-- One-layer unfolding of the loop: run the iteration, test convergence,
then either stop (converged), stop on exhausted fuel (not converged), or
damp and continue. -/
theorem solve_loop_succ (p : YearInputs) (fuel : ℕ) (prev : ℚ) (iters_done : ℕ) :
    solve_loop p (fuel+1) prev iters_done =
      if conv_ok prev (iter_step p prev).new_interest then
        { schedules := (iter_step p prev).schedules
          net_income := (iter_step p prev).net_income
          fcf := (iter_step p prev).fcf
          converged := true
          iterations := iters_done + 1 }
      else if fuel = 0 then
        { schedules := (iter_step p prev).schedules
          net_income := (iter_step p prev).net_income
          fcf := (iter_step p prev).fcf
          converged := false
          iterations := iters_done + 1 }
      else solve_loop p fuel (damp_step p prev) (iters_done + 1) := rfl

/-- The loop reports at most `iters_done + fuel` total iterations. -/
theorem solve_loop_iter_le (p : YearInputs) :
    ∀ (n : ℕ) (prev : ℚ) (iters_done : ℕ),
      (solve_loop p (n+1) prev iters_done).iterations ≤ iters_done + (n+1) := by
  intro n
  induction n with
  | zero =>
      intro prev iters_done
      rw [solve_loop_succ]
      by_cases hc : conv_ok prev (iter_step p prev).new_interest = true
      · simp [hc]
      · simp [hc]
  | succ m ih =>
      intro prev iters_done
      rw [solve_loop_succ]
      by_cases hc : conv_ok prev (iter_step p prev).new_interest = true
      · simp [hc]
      · have hrec := ih (damp_step p prev) (iters_done + 1)
        simp only [hc, Bool.false_eq_true, ite_false, Nat.succ_ne_zero]
        omega

/-- The loop's `converged` flag is true exactly when the tolerance test
passes at some iteration within the fuel budget. -/
theorem solve_loop_conv_iff (p : YearInputs) :
    ∀ (n : ℕ) (prev : ℚ) (iters_done : ℕ),
      ((solve_loop p (n+1) prev iters_done).converged = true ↔
        ∃ k, k < n + 1 ∧ conv_ok ((damp_step p)^[k] prev)
          (iter_step p ((damp_step p)^[k] prev)).new_interest = true) := by
  intro n
  induction n with
  | zero =>
      intro prev iters_done
      rw [solve_loop_succ]
      by_cases hc : conv_ok prev (iter_step p prev).new_interest = true
      · simp only [hc, ite_true]
        constructor
        · intro _
          exact ⟨0, Nat.zero_lt_one, by simpa using hc⟩
        · intro _
          trivial
      · simp only [hc, Bool.false_eq_true, ite_false, ite_true]
        constructor
        · intro h
          simp at h
        · rintro ⟨k, hk, hck⟩
          interval_cases k
          simp only [Function.iterate_zero_apply] at hck
          exact absurd hck hc
  | succ m ih =>
      intro prev iters_done
      rw [solve_loop_succ]
      by_cases hc : conv_ok prev (iter_step p prev).new_interest = true
      · simp only [hc, ite_true]
        constructor
        · intro _
          exact ⟨0, Nat.succ_pos _, by simpa using hc⟩
        · intro _
          trivial
      · have hrec := ih (damp_step p prev) (iters_done + 1)
        simp only [hc, Bool.false_eq_true, ite_false, Nat.succ_ne_zero]
        rw [hrec]
        constructor
        · rintro ⟨k, hk, hck⟩
          refine ⟨k + 1, by omega, ?_⟩
          rwa [Function.iterate_succ_apply]
        · rintro ⟨k, hk, hck⟩
          cases k with
          | zero =>
              simp only [Function.iterate_zero_apply] at hck
              exact absurd hck hc
          | succ j =>
              refine ⟨j, by omega, ?_⟩
              rwa [Function.iterate_succ_apply] at hck

/-- On non-convergence the loop hands back the state computed at the very
last iteration, with the full iteration count. -/
theorem solve_loop_nonconv (p : YearInputs) :
    ∀ (n : ℕ) (prev : ℚ) (iters_done : ℕ),
      (solve_loop p (n+1) prev iters_done).converged = false →
        (solve_loop p (n+1) prev iters_done).schedules
            = (iter_step p ((damp_step p)^[n] prev)).schedules ∧
        (solve_loop p (n+1) prev iters_done).net_income
            = (iter_step p ((damp_step p)^[n] prev)).net_income ∧
        (solve_loop p (n+1) prev iters_done).fcf
            = (iter_step p ((damp_step p)^[n] prev)).fcf ∧
        (solve_loop p (n+1) prev iters_done).iterations = iters_done + (n+1) := by
  intro n
  induction n with
  | zero =>
      intro prev iters_done
      rw [solve_loop_succ]
      by_cases hc : conv_ok prev (iter_step p prev).new_interest = true
      · simp [hc]
      · simp [hc]
  | succ m ih =>
      intro prev iters_done
      rw [solve_loop_succ]
      by_cases hc : conv_ok prev (iter_step p prev).new_interest = true
      · simp [hc]
      · have hrec := ih (damp_step p prev) (iters_done + 1)
        simp only [hc, Bool.false_eq_true, ite_false, Nat.succ_ne_zero,
          Function.iterate_succ_apply]
        intro hfalse
        obtain ⟨h1, h2, h3, h4⟩ := hrec hfalse
        exact ⟨h1, h2, h3, by omega⟩

/-- C5: for every call of `solve_year` with a non-empty tranche list, the
fixed-point loop performs at most 100 iterations; the returned `converged`
flag is true exactly when some iteration satisfied
`|new − prev| ≤ $1` or `|new − prev| / max(|prev|, 1) ≤ 10⁻⁴`; and on
non-convergence the solver still returns the tranche schedule, interest
total, net income and FCF computed at the last (100th) iteration with
`converged = false`.  The embedding is a total function into
`SolverResult`, so no execution path raises. -/
theorem solver_year_loop_contract (p : YearInputs) (hp : p.tranches ≠ []) :
    (solve_year p).iterations ≤ 100 ∧
    ((solve_year p).converged = true ↔
      ∃ k, k < 100 ∧ conv_ok (prev_seq p k)
        (iter_step p (prev_seq p k)).new_interest = true) ∧
    ((solve_year p).converged = false →
      (solve_year p).tranche_schedules = (iter_step p (prev_seq p 99)).schedules ∧
      (solve_year p).net_income = (iter_step p (prev_seq p 99)).net_income ∧
      (solve_year p).free_cash_flow = (iter_step p (prev_seq p 99)).fcf ∧
      (solve_year p).total_interest_expense
          = ((iter_step p (prev_seq p 99)).schedules.map
              (fun s => s.interest_expense)).sum ∧
      (solve_year p).iterations = 100) := by
  have hml : MAX_ITERATIONS = 99 + 1 := rfl
  have hiter := solve_loop_iter_le p 99 (initial_interest p) 0
  have hconv := solve_loop_conv_iff p 99 (initial_interest p) 0
  have hnonc := solve_loop_nonconv p 99 (initial_interest p) 0
  simp only [solve_year, if_neg hp, hml]
  refine ⟨by simpa using hiter, ?_, ?_⟩
  · simpa [prev_seq] using hconv
  · intro hfalse
    obtain ⟨h1, h2, h3, h4⟩ := hnonc (by simpa using hfalse)
    refine ⟨by simpa [prev_seq] using h1, by simpa [prev_seq] using h2,
      by simpa [prev_seq] using h3, ?_, by simpa using h4⟩
    simp only [prev_seq]
    rw [h1]

/-- A concrete leveraged year for the C5 witness: one $100 straight-line
tranche at 8% over 7 years, EBITDA 50, D&A 3, capex 1, tax 25%. -/
def solverWitnessInput : YearInputs :=
  { ebitda := 50
    da := 3
    capex := 1
    working_capital_change := 0
    tax_rate := 1/4
    tranche_balances := [("Term Loan", 100)]
    tranches := [{ name := "Term Loan", amount := 100, interest_rate := 2/25,
                   term_years := 7, amortization_type := .straight_line }]
    year := 1 }

/-- Witness for C5 at the concrete leveraged year. -/
theorem solver_year_loop_contract_witness :
    solverWitnessInput.tranches ≠ [] ∧
    ((solve_year solverWitnessInput).iterations ≤ 100 ∧
      ((solve_year solverWitnessInput).converged = true ↔
        ∃ k, k < 100 ∧ conv_ok (prev_seq solverWitnessInput k)
          (iter_step solverWitnessInput (prev_seq solverWitnessInput k)).new_interest
            = true) ∧
      ((solve_year solverWitnessInput).converged = false →
        (solve_year solverWitnessInput).tranche_schedules
            = (iter_step solverWitnessInput (prev_seq solverWitnessInput 99)).schedules ∧
        (solve_year solverWitnessInput).net_income
            = (iter_step solverWitnessInput (prev_seq solverWitnessInput 99)).net_income ∧
        (solve_year solverWitnessInput).free_cash_flow
            = (iter_step solverWitnessInput (prev_seq solverWitnessInput 99)).fcf ∧
        (solve_year solverWitnessInput).total_interest_expense
            = ((iter_step solverWitnessInput
                (prev_seq solverWitnessInput 99)).schedules.map
                  (fun s => s.interest_expense)).sum ∧
        (solve_year solverWitnessInput).iterations = 100)) := by
  refine ⟨?_, solver_year_loop_contract _ ?_⟩ <;> simp [solverWitnessInput]

-- ---------------------------------------------------------------------------
-- Returns engine exit-multiple grid (src/backend/app/engine/returns.py,
-- compute_returns, lines 116-123)
-- ---------------------------------------------------------------------------

/-- The delta grid `[-2.0, -1.5, -1.0, -0.5, 0.0, 0.5, 1.0, 1.5, 2.0]`
(returns.py line 119). -/
def exit_multiple_deltas : List ℚ :=
  [-2, -3/2, -1, -1/2, 0, 1/2, 1, 3/2, 2]

/-- `exit_multiples = [round(entry_multiple + delta, 1) for delta in [...] if
(entry_multiple + delta) > 1.0]` (returns.py lines 117-121).  Note the guard
compares against 1.0 although the adjacent comment reads "Multiples must be
positive". -/
def exit_multiples (entry_multiple : ℚ) : List ℚ :=
  (exit_multiple_deltas.filter (fun delta => 1 < entry_multiple + delta)).map
    (fun delta => pyRound 1 (entry_multiple + delta))

/-- C4: at entry multiple 2.5× the candidate 2.5 − 2 = 0.5× is positive yet
is dropped by the grid (and 2.5 − 1.5 = 1.0× likewise), because the filter
keeps only candidates strictly greater than 1.0× — contradicting both the
claim ("every candidate multiple greater than zero is kept") and the code's
own inline comment. -/
theorem exit_multiples_drop_positive_candidates :
    exit_multiples (5/2) = [3/2, 2, 5/2, 3, 7/2, 4, 9/2] ∧
    (0 : ℚ) < 5/2 + (-2) ∧
    ((5/2 : ℚ) + (-2)) ∉ exit_multiples (5/2) ∧
    (0 : ℚ) < 5/2 + (-3/2) ∧
    ((5/2 : ℚ) + (-3/2)) ∉ exit_multiples (5/2) := by
  refine ⟨?_, by norm_num, ?_, by norm_num, ?_⟩ <;>
    norm_num [exit_multiples, exit_multiple_deltas, pyRound, roundHalfEven,
      List.filter]

-- ---------------------------------------------------------------------------
-- Verdict selection (src/backend/app/engine/financial_engine.py, run_deal,
-- lines 714-772)
-- ---------------------------------------------------------------------------

/-- `DealVerdict` enumeration (models.py lines 60-63). -/
inductive DealVerdict where
  | green
  | yellow
  | red
deriving DecidableEq, Repr

/-- `defense_uplift = is_defense_deal and
defense_positioning.backlog_coverage_ratio >= 2.0` (financial_engine.py lines
718-721), where `is_defense_deal` says a defense positioning block was
computed for the deal. -/
def defense_uplift (is_defense_deal : Bool) (backlog_coverage : ℚ) : Bool :=
  is_defense_deal && decide (2 ≤ backlog_coverage)

/-- Verdict selection from year-1 accretion/dilution (financial_engine.py
lines 723-759): `> 2.0` green; `>= -2.0` — or defense uplift and `>= -8.0` —
yellow; else red. -/
def deal_verdict (y1_ad : ℚ) (uplift : Bool) : DealVerdict :=
  if 2 < y1_ad then .green
  else if -2 ≤ y1_ad ∨ (uplift = true ∧ -8 ≤ y1_ad) then .yellow
  else .red

/-- C6: the verdict is GREEN iff year-1 A/D > 2%; without the defense uplift
it is RED iff A/D < −2% and YELLOW iff −2% ≤ A/D ≤ 2%; with the uplift the
YELLOW band extends down to −8% and RED holds iff A/D < −8%; and the uplift
itself applies exactly to defense deals with backlog coverage ≥ 2×. -/
theorem verdict_partition (y1_ad backlog_coverage : ℚ) :
    (∀ u : Bool, deal_verdict y1_ad u = .green ↔ 2 < y1_ad) ∧
    (deal_verdict y1_ad false = .red ↔ y1_ad < -2) ∧
    (deal_verdict y1_ad true = .red ↔ y1_ad < -8) ∧
    (deal_verdict y1_ad false = .yellow ↔ -2 ≤ y1_ad ∧ y1_ad ≤ 2) ∧
    (deal_verdict y1_ad true = .yellow ↔ -8 ≤ y1_ad ∧ y1_ad ≤ 2) ∧
    (defense_uplift true backlog_coverage = true ↔ 2 ≤ backlog_coverage) ∧
    (defense_uplift false backlog_coverage = false) := by
  refine ⟨fun u => ?_, ?_, ?_, ?_, ?_, ?_, ?_⟩ <;>
    simp only [deal_verdict, defense_uplift, Bool.true_and, Bool.false_and,
      decide_eq_true_eq] <;>
    split_ifs <;>
    simp_all <;>
    first
      | linarith
      | (constructor <;> intro <;> linarith)
      | (rename_i hor
         rcases hor with h | h <;> linarith)

-- ---------------------------------------------------------------------------
-- Leverage risk (src/backend/app/engine/risk_analyzer.py, _leverage_risk,
-- lines 19-79)
-- ---------------------------------------------------------------------------

/-- `RiskSeverity` enumeration (models.py lines 46-50). -/
inductive RiskSeverity where
  | low
  | medium
  | high
  | critical
deriving DecidableEq, Repr

/-- The inputs `_leverage_risk` reads from the deal:
`target.acquisition_price`, `structure.debt_percentage`,
`acquirer.total_debt`, `acquirer.ebitda`, `target.ebitda`. -/
structure LeverageInputs where
  acquisition_price : ℚ
  debt_percentage : ℚ
  acquirer_total_debt : ℚ
  acquirer_ebitda : ℚ
  target_ebitda : ℚ

/-- `acq_debt = target.acquisition_price * structure.debt_percentage`
(risk_analyzer.py line 32). -/
def leverage_acq_debt (p : LeverageInputs) : ℚ :=
  p.acquisition_price * p.debt_percentage

/-- `total_debt = acq_debt + acquirer.total_debt` (risk_analyzer.py
line 33). -/
def leverage_total_debt (p : LeverageInputs) : ℚ :=
  leverage_acq_debt p + p.acquirer_total_debt

/-- `combined_ebitda = acquirer.ebitda + target.ebitda` (risk_analyzer.py
line 34). -/
def combined_ebitda (p : LeverageInputs) : ℚ :=
  p.acquirer_ebitda + p.target_ebitda

/-- `leverage = total_debt / combined_ebitda` (risk_analyzer.py line 38). -/
def leverage (p : LeverageInputs) : ℚ :=
  leverage_total_debt p / combined_ebitda p

/-- The severity decision of `_leverage_risk` (risk_analyzer.py lines 35-53):
no flag when combined EBITDA ≤ 0 or leverage < 4; CRITICAL when leverage ≥ 6;
else HIGH when leverage > 5.0 else MEDIUM.  Only the severity is modelled —
the rest of the `RiskItem` is descriptive text. -/
def leverage_risk (p : LeverageInputs) : Option RiskSeverity :=
  if combined_ebitda p ≤ 0 then none
  else if leverage p < 4 then none
  else if 6 ≤ leverage p then some .critical
  else if 5 < leverage p then some .high
  else some .medium

/-- A deal at exactly 5.0× leverage: price 500 financed 100% by debt, no
acquirer debt, combined EBITDA 100. -/
def leverageFiveInput : LeverageInputs :=
  { acquisition_price := 500
    debt_percentage := 1
    acquirer_total_debt := 0
    acquirer_ebitda := 60
    target_ebitda := 40 }

/-- C7 counterexample: at leverage exactly 5× the analyzer flags MEDIUM, not
HIGH — the code's High test is strict (`leverage > 5.0`), so the claimed
"High for leverage ≥ 5×, in particular exactly 5× is High" fails. -/
theorem leverage_exactly_five_is_medium :
    leverage leverageFiveInput = 5 ∧
    leverage_risk leverageFiveInput = some RiskSeverity.medium := by
  constructor <;>
    norm_num [leverage_risk, leverage, leverage_total_debt, leverage_acq_debt,
      combined_ebitda, leverageFiveInput]

/-- C7 (amended): with combined EBITDA > 0, the leverage check flags nothing
below 4×, MEDIUM for 4× ≤ leverage ≤ 5×, HIGH for 5× < leverage < 6×, and
CRITICAL for leverage ≥ 6×. -/
theorem leverage_risk_bands (p : LeverageInputs) (h : 0 < combined_ebitda p) :
    (leverage_risk p = none ↔ leverage p < 4) ∧
    (leverage_risk p = some .medium ↔ 4 ≤ leverage p ∧ leverage p ≤ 5) ∧
    (leverage_risk p = some .high ↔ 5 < leverage p ∧ leverage p < 6) ∧
    (leverage_risk p = some .critical ↔ 6 ≤ leverage p) := by
  have hne : ¬ combined_ebitda p ≤ 0 := not_le.mpr h
  refine ⟨?_, ?_, ?_, ?_⟩ <;>
    simp only [leverage_risk, if_neg hne] <;>
    split_ifs <;>
    simp_all <;>
    first
      | linarith
      | (constructor <;> intro <;> linarith)
      | (intro h5; linarith)

/-- Witness for C7 (amended) at the concrete 5.0× input. -/
theorem leverage_risk_bands_witness :
    0 < combined_ebitda leverageFiveInput ∧
    ((leverage_risk leverageFiveInput = none ↔ leverage leverageFiveInput < 4) ∧
      (leverage_risk leverageFiveInput = some .medium ↔
        4 ≤ leverage leverageFiveInput ∧ leverage leverageFiveInput ≤ 5) ∧
      (leverage_risk leverageFiveInput = some .high ↔
        5 < leverage leverageFiveInput ∧ leverage leverageFiveInput < 6) ∧
      (leverage_risk leverageFiveInput = some .critical ↔
        6 ≤ leverage leverageFiveInput)) := by
  refine ⟨?_, leverage_risk_bands _ ?_⟩ <;>
    norm_num [combined_ebitda, leverageFiveInput]

-- ---------------------------------------------------------------------------
-- Round-timing signal (src/backend/app/engine/startup_engine.py,
-- _compute_round_timing, lines 600-668)
-- ---------------------------------------------------------------------------

/-- `StartupStage` enumeration (startup_models.py lines 14-18). -/
inductive StartupStage where
  | pre_seed
  | seed
  | series_a
deriving DecidableEq, Repr

/-- `RaiseSignal` values used by the round-timing logic. -/
inductive RaiseSignal where
  | raise_now
  | raise_in_months
  | focus_milestones
deriving DecidableEq, Repr

/-- `_STAGE_MONTHS_TO_NEXT` (startup_engine.py lines 560-565). -/
def stage_months_to_next : StartupStage → ℚ
  | .pre_seed => 18
  | .seed => 24
  | .series_a => 0

/-- `_next_stage_for` (startup_engine.py lines 590-597): Series A is
terminal. -/
def next_stage_for : StartupStage → Option StartupStage
  | .pre_seed => some .seed
  | .seed => some .series_a
  | .series_a => none

/-- The signal resolution of `_compute_round_timing` (startup_engine.py
lines 612-664) with `FUNDRAISE_PROCESS_MONTHS = 6.0`: runway is
`cash / burn` when burn > 0 else the 999 sentinel; Series A (no next stage)
always yields focus_milestones; otherwise raise_now below the raise window,
raise_in_months when the window opens within 12 months, else
focus_milestones. -/
def compute_round_timing (stage : StartupStage)
    (cash_on_hand monthly_burn_rate : ℚ) : RaiseSignal :=
  let runway_months :=
    if 0 < monthly_burn_rate then cash_on_hand / monthly_burn_rate else 999
  let months_until_window := stage_months_to_next stage - 6
  match next_stage_for stage with
  | none => .focus_milestones
  | some _ =>
      if runway_months < months_until_window then .raise_now
      else if runway_months < months_until_window + 12 then .raise_in_months
      else .focus_milestones

/-- The round-timing signal as the specification words it (claim C8), for
comparison with `compute_round_timing`: runway = cash / burn with sentinel
999 when burn = 0; raise_now when runway < months_to_next − 6;
raise_in_months when months_to_next − 6 ≤ runway < months_to_next − 6 + 12;
focus_milestones otherwise; Series A always focus_milestones. -/
def round_timing_spec (stage : StartupStage)
    (cash_on_hand monthly_burn_rate : ℚ) : RaiseSignal :=
  if stage = .series_a then .focus_milestones
  else
    let runway :=
      if monthly_burn_rate = 0 then 999 else cash_on_hand / monthly_burn_rate
    let m := stage_months_to_next stage
    if runway < m - 6 then .raise_now
    else if runway < m - 6 + 12 then .raise_in_months
    else .focus_milestones

/-- C8: for validated traction inputs (burn ≥ 0, enforced by the model's
`ge=0`), the code's round-timing signal agrees with the specification's
description for every stage, cash level and burn rate. -/
theorem round_timing_matches_spec (stage : StartupStage)
    (cash_on_hand monthly_burn_rate : ℚ) (hb : 0 ≤ monthly_burn_rate) :
    compute_round_timing stage cash_on_hand monthly_burn_rate
      = round_timing_spec stage cash_on_hand monthly_burn_rate := by
  rcases eq_or_lt_of_le hb with hz | hpos
  · cases stage <;>
      simp [compute_round_timing, round_timing_spec, next_stage_for,
        stage_months_to_next, ← hz]
  · have hnz : monthly_burn_rate ≠ 0 := ne_of_gt hpos
    cases stage <;>
      simp [compute_round_timing, round_timing_spec, next_stage_for,
        stage_months_to_next, hpos, hnz]

/-- Witness for C8 at the spec's own scenario: seed stage, $0.7M cash,
$0.05M monthly burn (runway 14 months). -/
theorem round_timing_matches_spec_witness :
    (0 : ℚ) ≤ 1/20 ∧
    compute_round_timing StartupStage.seed (7/10) (1/20)
      = round_timing_spec StartupStage.seed (7/10) (1/20) := by
  exact ⟨by norm_num, round_timing_matches_spec _ _ _ (by norm_num)⟩

-- ---------------------------------------------------------------------------
-- Sensitivity cell error handling (src/backend/app/engine/financial_engine.py
-- _accretion_fn lines 488-498, and sensitivity.py build_sensitivity_matrix
-- lines 66-77)
-- ---------------------------------------------------------------------------

/-- The slice of a nested projector run that `_accretion_fn` reads: the
`accretion_dilution_pct` of each year of the pro-forma income statement. -/
structure ProjectorOut where
  accretion_dilution_pcts : List ℚ

/-- `_accretion_fn` (financial_engine.py lines 488-498): run the projector on
the modified deal with sensitivity generation suppressed; on success return
`pro_forma_income_statement[0].accretion_dilution_pct / 100` (0.0 when the
statement is empty); on any exception return 0.0.  The Python `try/except` is
modelled by the projector returning `Except`. -/
def accretion_fn {D E : Type} (run_deal_fn : D → Except E ProjectorOut)
    (modified_deal : D) : ℚ :=
  match run_deal_fn modified_deal with
  | .error _ => 0
  | .ok out =>
      match out.accretion_dilution_pcts with
      | [] => 0
      | pct :: _ => pct / 100

/-- The per-cell loop of `build_sensitivity_matrix` (sensitivity.py lines
66-77): `data[row][col] = round(compute_fn(row_val, col_val), 4)`, where the
compute function perturbs the deal and calls `_accretion_fn`. -/
def sensitivity_data {D E : Type} (run_deal_fn : D → Except E ProjectorOut)
    (perturb : ℚ → ℚ → D) (row_values col_values : List ℚ) : List (List ℚ) :=
  row_values.map (fun row_val =>
    col_values.map (fun col_val =>
      pyRound 4 (accretion_fn run_deal_fn (perturb row_val col_val))))

/-- Indexing through `map` below a valid index. -/
theorem getD_map_of_lt {α β : Type} (f : α → β) (d0 : α) :
    ∀ (l : List α) (n : ℕ), n < l.length → ∀ (d : β),
      (l.map f).getD n d = f (l.getD n d0) := by
  intro l
  induction l with
  | nil =>
      intro n hn
      simp at hn
  | cons x xs ih =>
      intro n hn d
      cases n with
      | zero => simp
      | succ m =>
          simp only [List.map_cons, List.getD_cons_succ]
          exact ih m (by simpa using hn) d

/-- Python `round(0.0, 4) = 0.0`. -/
theorem pyRound_four_zero : pyRound 4 0 = 0 := by
  norm_num [pyRound, roundHalfEven]

/-- C9: if the nested projector raises on the perturbed deal of cell (i, j),
that cell of the sensitivity matrix is 0.0, the matrix is still fully built
(shape |rows| × |cols|), and every other cell holds its own computed value —
an exception in one cell never aborts or escapes matrix generation (the
embedding of the generation loop is a total function). -/
theorem sensitivity_cell_error_yields_zero {D E : Type}
    (run_deal_fn : D → Except E ProjectorOut) (perturb : ℚ → ℚ → D)
    (row_values col_values : List ℚ) (i j : ℕ) (e : E)
    (hi : i < row_values.length) (hj : j < col_values.length)
    (herr : run_deal_fn (perturb (row_values.getD i 0) (col_values.getD j 0))
      = .error e) :
    (sensitivity_data run_deal_fn perturb row_values col_values).length
        = row_values.length ∧
    (∀ row ∈ sensitivity_data run_deal_fn perturb row_values col_values,
        row.length = col_values.length) ∧
    (∀ i' j', i' < row_values.length → j' < col_values.length →
      ((sensitivity_data run_deal_fn perturb row_values col_values).getD i' []).getD j' 1
        = pyRound 4 (accretion_fn run_deal_fn
            (perturb (row_values.getD i' 0) (col_values.getD j' 0)))) ∧
    ((sensitivity_data run_deal_fn perturb row_values col_values).getD i []).getD j 1
        = 0 := by
  have hcell : ∀ i' j', i' < row_values.length → j' < col_values.length →
      ((sensitivity_data run_deal_fn perturb row_values col_values).getD i' []).getD j' 1
        = pyRound 4 (accretion_fn run_deal_fn
            (perturb (row_values.getD i' 0) (col_values.getD j' 0))) := by
    intro i' j' hi' hj'
    unfold sensitivity_data
    rw [getD_map_of_lt _ 0 _ _ hi' []]
    rw [getD_map_of_lt _ 0 _ _ hj' 1]
  refine ⟨by simp [sensitivity_data], ?_, hcell, ?_⟩
  · intro row hrow
    obtain ⟨r, _, hmap⟩ := List.mem_map.mp hrow
    simp [← hmap]
  · rw [hcell i j hi hj]
    unfold accretion_fn
    rw [herr]
    exact pyRound_four_zero

/-- A concrete instantiation for the C9 witness: a projector that always
raises, a 2 × 1 grid. -/
def alwaysFailingProjector : ℚ → Except String ProjectorOut :=
  fun _ => Except.error "validation failed"

/-- Witness for C9 at the concrete failing projector on a 2 × 1 grid. -/
theorem sensitivity_cell_error_witness :
    ((0 : ℕ) < ([1, 2] : List ℚ).length ∧ (0 : ℕ) < ([3] : List ℚ).length ∧
      alwaysFailingProjector ((fun r c => r + c) (([1, 2] : List ℚ).getD 0 0)
        (([3] : List ℚ).getD 0 0)) = Except.error "validation failed") ∧
    ((sensitivity_data alwaysFailingProjector (fun r c => r + c) [1, 2] [3]).length
        = ([1, 2] : List ℚ).length ∧
      (∀ row ∈ sensitivity_data alwaysFailingProjector (fun r c => r + c) [1, 2] [3],
          row.length = ([3] : List ℚ).length) ∧
      (∀ i' j', i' < ([1, 2] : List ℚ).length → j' < ([3] : List ℚ).length →
        ((sensitivity_data alwaysFailingProjector (fun r c => r + c) [1, 2] [3]).getD i' []).getD j' 1
          = pyRound 4 (accretion_fn alwaysFailingProjector
              ((fun r c => r + c) (([1, 2] : List ℚ).getD i' 0)
                (([3] : List ℚ).getD j' 0)))) ∧
      ((sensitivity_data alwaysFailingProjector (fun r c => r + c) [1, 2] [3]).getD 0 []).getD 0 1
          = 0) := by
  refine ⟨⟨by norm_num, by norm_num, rfl⟩, ?_⟩
  exact sensitivity_cell_error_yields_zero alwaysFailingProjector _ _ _ 0 0
    "validation failed" (by norm_num) (by norm_num) rfl

-- ---------------------------------------------------------------------------
-- Risk-Factor Summation floor (src/backend/app/engine/startup_engine.py,
-- _run_rfs, lines 417-427)
-- ---------------------------------------------------------------------------

/-- `total_adjustment = sum(rfs.values()) * adj_per_step`
(startup_engine.py line 417): the twelve integer category scores summed and
scaled. -/
def rfs_total_adjustment (scores : List ℤ) (adj_per_step : ℚ) : ℚ :=
  ((scores.map (fun s => (s : ℚ))).sum) * adj_per_step

/-- `indicated = max(0.5, base + total_adjustment)` — the $500K floor
(startup_engine.py lines 418-419). -/
def rfs_indicated (base : ℚ) (scores : List ℤ) (adj_per_step : ℚ) : ℚ :=
  max (1/2) (base + rfs_total_adjustment scores adj_per_step)

/-- `indicated_value = round(indicated, 2)` (startup_engine.py line 424). -/
def rfs_indicated_value (base : ℚ) (scores : List ℤ) (adj_per_step : ℚ) : ℚ :=
  pyRound 2 (rfs_indicated base scores adj_per_step)

/-- `value_low = round(max(0.5, indicated * 0.80), 2)`
(startup_engine.py line 425). -/
def rfs_value_low (base : ℚ) (scores : List ℤ) (adj_per_step : ℚ) : ℚ :=
  pyRound 2 (max (1/2) (rfs_indicated base scores adj_per_step * (4/5)))

/-- Half-to-even rounding never drops below an integer lower bound. -/
theorem le_roundHalfEven (z : ℤ) (q : ℚ) (h : (z : ℚ) ≤ q) :
    z ≤ roundHalfEven q := by
  have hf : z ≤ ⌊q⌋ := Int.le_floor.mpr h
  unfold roundHalfEven
  split_ifs <;> omega

/-- Rounding to two decimals preserves the $0.5M floor. -/
theorem half_le_pyRound_two (q : ℚ) (h : 1/2 ≤ q) : 1/2 ≤ pyRound 2 q := by
  have h50 : ((50 : ℤ) : ℚ) ≤ q * 10 ^ 2 := by push_cast; linarith
  have hr : (50 : ℤ) ≤ roundHalfEven (q * 10 ^ 2) := le_roundHalfEven _ _ h50
  have hrq : ((50 : ℤ) : ℚ) ≤ (roundHalfEven (q * 10 ^ 2) : ℚ) := by
    exact_mod_cast hr
  unfold pyRound
  rw [le_div_iff₀ (by norm_num : (0 : ℚ) < 10 ^ 2)]
  have hfifty : (1/2 : ℚ) * 10 ^ 2 = 50 := by norm_num
  rw [hfifty]
  exact_mod_cast hr

/-- C10: for every base, adjustment step and list of risk-category scores —
in particular, no matter how negative the twelve scores are — the RFS
method's `indicated_value` and `value_low` are both at least $0.5M. -/
theorem rfs_floored_at_half_million (base adj_per_step : ℚ) (scores : List ℤ) :
    1/2 ≤ rfs_indicated_value base scores adj_per_step ∧
    1/2 ≤ rfs_value_low base scores adj_per_step := by
  constructor
  · exact half_le_pyRound_two _ (le_max_left _ _)
  · exact half_le_pyRound_two _ (le_max_left _ _)
